import Mathlib

/-!
Verification development for the duplicate-issue detection pipeline of the
issue-scribe application.  The TypeScript sources are shallowly embedded:

* string/regex primitives model the JavaScript operations used by the code
  (`toLowerCase`, `split(/\s+/)`, `trim`, `includes`, word-boundary regex
  matching over fixed alternation vocabularies);
* `src/utils/similarity.ts` gives `calculateJaccardSimilarity`,
  `calculateSemanticSimilarity` and `extractKeywords`;
* `src/services/frontendMCP.ts` gives `generateSearchQueries`,
  `calculateBasicSimilarity`, the per-candidate scoring loop and the
  ranking/truncation of `analyzeWithOpenAI`, and `analyzeForDuplicates`;
* `src/hooks/useFrontendMCP.ts` gives the `MCPAnalysisResult` assembly;
* `src/services/intercomApi.ts` gives `processConversationData`.

JavaScript numbers are modelled by `ℚ`; timestamps by `ℕ` (epoch seconds in
the payload, epoch milliseconds — the `new Date(ts * 1000)` conversion — in
normalized messages, an order-isomorphic encoding of the ISO-8601 strings the
code stores).  Network calls (GitHub search, the per-candidate AI similarity
judgment) are oracles passed as function arguments; `Except`/`Option` model
thrown exceptions.
-/

/-! ### JavaScript string primitives -/

/-- ASCII whitespace recognized by the JavaScript `\s` class (the unicode
space characters that `\s` also matches never occur in the embedded data). -/
def isSpaceJS (c : Char) : Bool :=
  c = ' ' || c = '\t' || c = '\n' || c = '\r' || c = '\u000B' || c = '\u000C'

/-- The JavaScript `\w` word-character class `[A-Za-z0-9_]`. -/
def isWordCharJS (c : Char) : Bool :=
  ('a' ≤ c && c ≤ 'z') || ('A' ≤ c && c ≤ 'Z') || ('0' ≤ c && c ≤ '9') || c = '_'

/-- `String.prototype.toLowerCase` on the character list. -/
def toLowerL (l : List Char) : List Char := l.map Char.toLower

/-- `String.prototype.toLowerCase`. -/
def toLowerS (s : String) : String := String.mk (toLowerL s.data)

/-- `text.split(/\s+/)` on the character list: tokens are the maximal runs of
non-whitespace characters, with an extra empty token at an end of the string
that touches whitespace (JavaScript yields `["", "a"]` for `" a"`), and a
single empty token for the empty string. -/
def splitWS : List Char → List (List Char)
  | [] => [[]]
  | c :: rest =>
    let r := splitWS rest
    if isSpaceJS c then
      match rest with
      | c2 :: _ => if isSpaceJS c2 then r else [] :: r
      | [] => [] :: r
    else
      match r with
      | t :: ts => (c :: t) :: ts
      | [] => [[c]]

/-- `String.prototype.trim` on the character list. -/
def jsTrimL (l : List Char) : List Char :=
  List.rdropWhile isSpaceJS (l.dropWhile isSpaceJS)

/-- `String.prototype.trim`. -/
def jsTrimS (s : String) : String := String.mk (jsTrimL s.data)

/-- `Array.prototype.join(' ')` on character-list tokens. -/
def joinTokens : List (List Char) → List Char
  | [] => []
  | [t] => t
  | t :: ts => t ++ (' ' :: joinTokens ts)

/-- `Array.prototype.join(' ')`. -/
def joinSpace (ss : List String) : String :=
  String.mk (joinTokens (ss.map String.data))

/-- First-occurrence deduplication, the semantics of the source's
`arr.filter((x, i) => arr.indexOf(x) === i)` / `[...new Set(arr)]` idioms. -/
def dedupFirst {α : Type} [DecidableEq α] : List α → List α
  | [] => []
  | a :: rest => a :: (dedupFirst rest).filter (fun b => b ≠ a)

/-- `hay.includes(sub)`: substring containment. -/
def containsSub (hay sub : String) : Bool := decide (sub.data <:+: hay.data)

/-! ### Word-boundary alternation matching

`text.match(/\b(alt1|alt2|...)\b/gi)` for alternatives made of word
characters: the JavaScript engine scans left to right, at each attempted
position tries the alternatives in pattern order, requires a word boundary on
both sides of the match, and resumes after the end of a match. -/

/-- The alternative (in pattern order) matching at the head of `l` with a
word boundary after it; the boundary before `l` is the caller's concern. -/
def firstAltMatch (terms : List (List Char)) (l : List Char) : Option (List Char) :=
  terms.find? (fun t =>
    decide (t <+: l) &&
    (match l.drop t.length with
     | [] => true
     | c :: _ => !isWordCharJS c))

/-- Left-to-right scan.  `skip` counts characters still covered by the last
match (the engine resumes at its end); `prevWord` records whether the
previous character is a word character (no word boundary, so no match may
start here).  All alternatives in the vocabularies below start and end with
word characters, so a match can only start where `prevWord` is false. -/
def scanAlternatives (terms : List (List Char)) :
    List Char → Nat → Bool → List (List Char)
  | [], _, _ => []
  | c :: rest, k + 1, _ => scanAlternatives terms rest k (isWordCharJS c)
  | c :: rest, 0, prevWord =>
    if prevWord then
      scanAlternatives terms rest 0 (isWordCharJS c)
    else
      match firstAltMatch terms (c :: rest) with
      | some t => t :: scanAlternatives terms rest (t.length - 1) (isWordCharJS c)
      | none => scanAlternatives terms rest 0 (isWordCharJS c)

/-- `text.match(/\b(…)\b/g)` over a fixed alternation vocabulary, returning
the matches in text order (`[]` models JavaScript's `null` result). -/
def regexMatchAll (terms : List String) (text : String) : List String :=
  (scanAlternatives (terms.map String.data) text.data 0 false).map String.mk

/-! ### `src/utils/similarity.ts` -/

/-- `calculateJaccardSimilarity` (src/utils/similarity.ts): Jaccard
similarity over the sets of whitespace-split words of the lowercased
texts. -/
def wordFinset (s : String) : Finset String :=
  ((splitWS s.data).map String.mk).toFinset

def calculateJaccardSimilarity (text1 text2 : String) : ℚ :=
  let words1 := wordFinset (toLowerS text1)
  let words2 := wordFinset (toLowerS text2)
  ((words1 ∩ words2).card : ℚ) / ((words1 ∪ words2).card : ℚ)

structure NewIssueInfo where
  title : String
  body : String
  errorMessages : Option String
  appId : Option String
deriving DecidableEq

structure ExistingIssueInfo where
  title : String
  body : String
  labels : List String
deriving DecidableEq

/-- `calculateSemanticSimilarity` (src/utils/similarity.ts): the weighted
four-term lexical formula.  The `if (newIssue.errorMessages)` /
`if (newIssue.appId && …)` guards use JavaScript truthiness, under which both
`undefined` and the empty string are false. -/
def calculateSemanticSimilarity (newIssue : NewIssueInfo) (existingIssue : ExistingIssueInfo) : ℚ :=
  let titleSimilarity := calculateJaccardSimilarity newIssue.title existingIssue.title
  let bodySimilarity := calculateJaccardSimilarity newIssue.body existingIssue.body
  let errorSimilarity : ℚ :=
    match newIssue.errorMessages with
    | some s => if s ≠ "" then calculateJaccardSimilarity s existingIssue.body else 0
    | none => 0
  let appIdMatch : ℚ :=
    match newIssue.appId with
    | some a => if a ≠ "" && containsSub existingIssue.body a then 1 else 0
    | none => 0
  titleSimilarity * 0.4 + bodySimilarity * 0.3 + errorSimilarity * 0.2 + appIdMatch * 0.1

/-- The stop-word set of `extractKeywords` (src/utils/similarity.ts). -/
def commonWords : List String :=
  ["the", "a", "an", "and", "or", "but", "in", "on", "at", "to", "for", "of", "with", "by",
   "is", "are", "was", "were", "be", "been", "have", "has", "had", "do", "does", "did",
   "will", "would", "could", "should", "may", "might", "can", "cannot", "this", "that",
   "these", "those", "i", "you", "he", "she", "it", "we", "they", "my", "your", "his",
   "her", "its", "our", "their"]

/-- The keyword filter of `extractKeywords`:
`word.length > 2 && !commonWords.has(word)`. -/
def keepKeyword (t : List Char) : Bool :=
  2 < t.length && !(commonWords.map String.data).contains t

/-- `extractKeywords` (src/utils/similarity.ts) on the character list:
lowercase, strip the characters outside `[\w\s]`, split on whitespace, keep
long non-stop-words, truncate to 20. -/
def extractKeywordsL (l : List Char) : List (List Char) :=
  ((splitWS ((toLowerL l).filter (fun c => isWordCharJS c || isSpaceJS c))).filter
    keepKeyword).take 20

/-- `extractKeywords` (src/utils/similarity.ts). -/
def extractKeywords (s : String) : List String :=
  (extractKeywordsL s.data).map String.mk

/-! ### Data model of `src/types/mcp.ts`, `src/types/conversation.ts` -/

inductive RelationshipType
  | duplicate
  | related
  | dependency
  | followUp
deriving DecidableEq

inductive SuggestedAction
  | reference
  | merge
  | updateExisting
  | createNew
deriving DecidableEq

/-- A GitHub issue as consumed by the pipeline; only the fields the embedded
code reads are modelled (`body` is nullable in the API payload). -/
structure GitHubIssue where
  id : Nat
  number : Nat
  title : String
  body : Option String
  state : String
deriving DecidableEq

structure GitHubIssueTemplate where
  title : String
  body : String
  labels : List String
  priority : String
deriving DecidableEq

/-- `EnhancedIssueContext`; the free-form fields the embedded code never
reads (screenshots, reproduction steps, technical details, browser info) are
omitted. -/
structure EnhancedIssueContext where
  errorMessages : String
  appId : String
  customerImpact : String
deriving DecidableEq

structure AIAnalyzedIssue where
  issue : GitHubIssue
  similarity_score : ℚ
  relationship_type : RelationshipType
  reasoning : String
  suggested_action : SuggestedAction
deriving DecidableEq

/-! ### `src/services/frontendMCP.ts` -/

/-- The `problemPatterns` table of `generateSearchQueries`, in source
(insertion) order. -/
def problemPatterns : List (String × List String) :=
  [("loading_issues", ["not loading", "not showing", "not displaying", "not appearing", "missing", "blank"]),
   ("error_patterns", ["error", "failed", "failure", "broken", "issue", "problem"]),
   ("server_issues", ["server error", "internal error", "500", "502", "503", "504", "backend", "api error"]),
   ("auth_issues", ["authentication", "login", "signin", "unauthorized", "401", "403"]),
   ("ui_components", ["messenger", "widget", "chat", "popup", "modal", "button", "form"])]

/-- The technical-term alternation of `generateSearchQueries` step 4. -/
def technicalVocab : List String :=
  ["api", "widget", "messenger", "chat", "authentication", "login", "webhook",
   "integration", "popup", "modal", "iframe", "script", "cdn", "cors", "ssl",
   "tls", "oauth", "jwt", "session", "cookie", "token"]

/-- The error-term alternation of `generateSearchQueries` step 7. -/
def errorVocab : List String :=
  ["error", "exception", "failed", "timeout", "refused", "forbidden",
   "unauthorized", "not found", "bad request"]

/-- Step 9 of `generateSearchQueries` plus its final fallback: trim, drop
queries outside the length bounds, deduplicate keeping first occurrences,
cap at 8; if nothing survives, return the fixed generic set. -/
def cleanAndCap (queries : List String) : List String :=
  let cleanQueries :=
    (dedupFirst ((queries.map jsTrimS).filter (fun q => 2 < q.length && q.length < 50))).take 8
  if 0 < cleanQueries.length then cleanQueries else ["error", "issue", "bug"]

/-- `generateSearchQueries` (src/services/frontendMCP.ts).  The `/gi` regex
matches run over already-lowercased text (`fullText`; `errorMessages` is
lowercased before the scan, which for the all-lowercase vocabularies is the
same as case-insensitive matching on the original). -/
def generateSearchQueries (template : GitHubIssueTemplate) (context : EnhancedIssueContext) :
    List String :=
  let titleLower := toLowerS template.title
  let bodyLower := toLowerS template.body
  let fullText := titleLower ++ " " ++ bodyLower
  let detectedCategories :=
    (problemPatterns.filter (fun cp => cp.2.any (fun pat => containsSub fullText pat))).map
      Prod.fst
  let queries : List String :=
    (if detectedCategories.contains "loading_issues" && detectedCategories.contains "ui_components"
     then ["not showing", "not loading", "not displaying", "not appearing"] else [])
    ++ (if detectedCategories.contains "server_issues"
        then ["server error", "internal error", "500 error", "backend error", "api error"] else [])
    ++ (if detectedCategories.contains "auth_issues"
        then ["authentication", "login", "unauthorized", "401"] else [])
    ++ (let technicalTerms := regexMatchAll technicalVocab fullText
        if technicalTerms.isEmpty then []
        else (dedupFirst (technicalTerms.map toLowerS)).take 3)
    ++ ["error", "issue", "problem", "bug", "failed", "broken"]
    ++ (if containsSub fullText "messenger" || containsSub fullText "chat"
        then ["messenger", "chat"] else [])
    ++ (if containsSub fullText "widget" || containsSub fullText "popup"
        then ["widget", "popup"] else [])
    ++ (if 10 < context.errorMessages.length then
          let errorTerms := regexMatchAll errorVocab (toLowerS context.errorMessages)
          if errorTerms.isEmpty then []
          else (dedupFirst (errorTerms.map toLowerS)).take 2
        else [])
  let queries := queries ++ (if context.appId ≠ "" && 3 < queries.length
                             then [context.appId] else [])
  cleanAndCap queries

/-- The score-to-classification mapping inlined in the scoring loop of
`analyzeWithOpenAI` (relationship type and suggested action start at
`related`/`reference` and are reassigned on the two threshold branches). -/
def classifyScore (score : ℚ) : RelationshipType × SuggestedAction :=
  if 0.8 ≤ score then (RelationshipType.duplicate, SuggestedAction.merge)
  else if 0.6 ≤ score then (RelationshipType.related, SuggestedAction.reference)
  else (RelationshipType.related, SuggestedAction.reference)

/-- `calculateBasicSimilarity` (src/services/frontendMCP.ts): Jaccard over
whitespace-split words of lowercased `title + ' ' + body` texts, plus a 0.2
boost when one error text contains the other (candidate text vs the first 50
characters of the issue text), capped at 1. -/
def calculateBasicSimilarity (issue : GitHubIssue) (template : GitHubIssueTemplate)
    (context : EnhancedIssueContext) : ℚ :=
  let issueText := toLowerS (issue.title ++ " " ++ issue.body.getD "")
  let templateText := toLowerS (template.title ++ " " ++ template.body)
  let issueWords := wordFinset issueText
  let templateWords := wordFinset templateText
  let jaccard : ℚ :=
    ((issueWords ∩ templateWords).card : ℚ) / ((issueWords ∪ templateWords).card : ℚ)
  let boost : ℚ :=
    if 0 < context.errorMessages.length then
      let errorText := toLowerS context.errorMessages
      if containsSub issueText errorText
         || containsSub errorText (String.mk (issueText.data.take 50))
      then 0.2 else 0
    else 0
  min 1 (jaccard + boost)

/-- The search loop of `analyzeWithOpenAI` (lines 140–155): one
`searchGitHubIssues` call per query; a throwing call is caught, logged and
skipped; successful results are concatenated in query order. -/
def collectSearchResults (search : String → Except Unit (List GitHubIssue))
    (queries : List String) : List GitHubIssue :=
  queries.foldl (fun acc q =>
    match search q with
    | Except.ok issues => acc ++ issues
    | Except.error _ => acc) []

/-- The deduplication of `analyzeWithOpenAI` (lines 158–160):
`allFoundIssues.filter((issue, i, arr) => arr.findIndex(x => x.id === issue.id) === i)`,
keeping the first occurrence of each issue id. -/
def dedupById : List GitHubIssue → List GitHubIssue
  | [] => []
  | issue :: rest => issue :: (dedupById rest).filter (fun other => other.id ≠ issue.id)

/-- The reasoning string pushed by the scoring loop's catch branch. -/
def fallbackReasoning : String := "Basic similarity calculation (AI analysis failed)"

/-- The per-candidate scoring loop of `analyzeWithOpenAI` (lines 166–218).
`scoreOutcome` is the oracle for the awaited `calculateSemanticSimilarity`
call on each candidate (`none` models a thrown exception): on success the
score is classified by the threshold branches; on a throw the candidate falls
back to `calculateBasicSimilarity` with relationship `related`, the fallback
reasoning string and action `reference`. -/
def scoredCandidates (scoreOutcome : GitHubIssue → Option (ℚ × String))
    (template : GitHubIssueTemplate) (context : EnhancedIssueContext)
    (uniqueIssues : List GitHubIssue) : List AIAnalyzedIssue :=
  uniqueIssues.map (fun issue =>
    match scoreOutcome issue with
    | some res =>
      { issue := issue
        similarity_score := res.1
        relationship_type := (classifyScore res.1).1
        reasoning := res.2
        suggested_action := (classifyScore res.1).2 }
    | none =>
      { issue := issue
        similarity_score := calculateBasicSimilarity issue template context
        relationship_type := RelationshipType.related
        reasoning := fallbackReasoning
        suggested_action := SuggestedAction.reference })

/-- Stable descending insertion used to model the stable
`analyzedIssues.sort((a, b) => b.similarity_score - a.similarity_score)`:
an element moves before another only when its score is strictly larger, so
ties keep their original order, exactly as JavaScript's stable sort. -/
def insertByScoreDesc (x : AIAnalyzedIssue) : List AIAnalyzedIssue → List AIAnalyzedIssue
  | [] => [x]
  | y :: ys =>
    if y.similarity_score ≤ x.similarity_score then x :: y :: ys
    else y :: insertByScoreDesc x ys

def sortByScoreDesc : List AIAnalyzedIssue → List AIAnalyzedIssue
  | [] => []
  | x :: xs => insertByScoreDesc x (sortByScoreDesc xs)

/-- `this.config.maxResults || 10`: JavaScript `||` with a numeric left
operand treats `undefined` and `0` as absent. -/
def jsOrDefault (n : Option Nat) (d : Nat) : Nat :=
  match n with
  | some k => if k = 0 then d else k
  | none => d

/-- `analyzeWithOpenAI` (src/services/frontendMCP.ts, lines 128–232):
generate queries, search each (failures skipped), deduplicate by id, score
every unique candidate (individual failures fall back), sort by score
descending and truncate to `maxResults || 10`. -/
def analyzeWithOpenAI (search : String → Except Unit (List GitHubIssue))
    (scoreOutcome : GitHubIssue → Option (ℚ × String))
    (template : GitHubIssueTemplate) (context : EnhancedIssueContext)
    (maxResults : Option Nat) : List AIAnalyzedIssue :=
  let searchQueries := generateSearchQueries template context
  let allFoundIssues := collectSearchResults search searchQueries
  let uniqueIssues := dedupById allFoundIssues
  let analyzedIssues := scoredCandidates scoreOutcome template context uniqueIssues
  (sortByScoreDesc analyzedIssues).take (jsOrDefault maxResults 10)

/-- `analyzeForDuplicates` (src/services/frontendMCP.ts, lines 78–126) on the
OpenAI path: it throws only when no AI service is initialized; otherwise it
returns whatever `analyzeWithOpenAI` produces. -/
def analyzeForDuplicates (aiAvailable : Bool)
    (search : String → Except Unit (List GitHubIssue))
    (scoreOutcome : GitHubIssue → Option (ℚ × String))
    (template : GitHubIssueTemplate) (context : EnhancedIssueContext)
    (maxResults : Option Nat) : Except String (List AIAnalyzedIssue) :=
  if aiAvailable then
    Except.ok (analyzeWithOpenAI search scoreOutcome template context maxResults)
  else
    Except.error "No AI service initialized"

/-! ### `src/hooks/useFrontendMCP.ts` -/

structure MCPAnalysisResult where
  analyzed_issues : List AIAnalyzedIssue
  total_searched : Nat
  search_time_ms : Nat
  ai_model_used : String
deriving DecidableEq

/-- The result assembly of the hook's `analyzeForDuplicates`
(src/hooks/useFrontendMCP.ts, lines 100–109): `total_searched` is set to
`analyzedIssues.length`, the length of the list the client returned; the
elapsed wall-clock time is an opaque input. -/
def mkAnalysisResult (analyzedIssues : List AIAnalyzedIssue) (elapsedMs : Nat)
    (useLocalAI : Bool) : MCPAnalysisResult :=
  { analyzed_issues := analyzedIssues
    total_searched := analyzedIssues.length
    search_time_ms := elapsedMs
    ai_model_used := if useLocalAI then "WebLLM (Local)" else "OpenAI GPT-4" }

/-! ### `src/services/intercomApi.ts` — conversation normalization -/

/-- JavaScript truthiness of an optional string (`undefined` and `""` are
falsy). -/
def jsTruthyStr (v : Option String) : Bool :=
  match v with
  | some s => s ≠ ""
  | none => false

/-- `v || d` for an optional string value. -/
def jsOrString (v : Option String) (d : String) : String :=
  match v with
  | some s => if s = "" then d else s
  | none => d

structure IntercomAuthor where
  type : String
  name : Option String
  email : Option String
deriving DecidableEq

structure IntercomContact where
  name : Option String
  email : Option String
deriving DecidableEq

structure IntercomSource where
  subject : Option String
  body : Option String
  author : IntercomAuthor
deriving DecidableEq

/-- One entry of `conversation_parts.conversation_parts`.  Attachments are
passed through untouched by the normalizer and are not modelled. -/
structure ConversationPart where
  id : String
  part_type : String
  body : Option String
  created_at : Nat
  author : IntercomAuthor
deriving DecidableEq

/-- The raw Intercom payload, with the recognized custom attributes of
`custom_attributes` modelled as explicit fields (`queryType` is
`'Query Type'`, `aiIssueSummary` the truthiness of `'AI Issue summary'`,
`brand` is `'Brand'`, `cxRating` is `'Customer Experience (CX) rating'`). -/
structure IntercomConversation where
  id : String
  title : Option String
  created_at : Nat
  updated_at : Nat
  source : IntercomSource
  contacts : List IntercomContact
  conversation_parts : List ConversationPart
  tags : List String
  queryType : Option String
  aiIssueSummary : Bool
  brand : Option String
  cxRating : Option Int
  priority : String
  state : String
deriving DecidableEq

/-- A normalized message.  `createdAt` is in epoch milliseconds, the
order-isomorphic model of the ISO-8601 string `new Date(ts * 1000).toISOString()`. -/
structure ConversationMessage where
  id : String
  authorName : String
  authorEmail : String
  authorType : String
  body : String
  createdAt : Nat
deriving DecidableEq

structure ProcessedConversation where
  id : String
  title : String
  customerName : String
  customerEmail : String
  createdAt : Nat
  updatedAt : Nat
  status : String
  messages : List ConversationMessage
  tags : List String
  priority : String
deriving DecidableEq

/-- Author-role normalization: `'admin'` and `'bot'` survive, every other
author type becomes `'customer'`. -/
def normalizeAuthorType (t : String) : String :=
  if t = "admin" then "admin" else if t = "bot" then "bot" else "customer"

/-- The message built from `rawConversation.source` when its body is truthy. -/
def sourceMessage (raw : IntercomConversation) : ConversationMessage :=
  { id := "source"
    authorName := jsOrString raw.source.author.name "Unknown"
    authorEmail := jsOrString raw.source.author.email ""
    authorType := normalizeAuthorType raw.source.author.type
    body := raw.source.body.getD ""
    createdAt := raw.created_at * 1000 }

/-- The message built from one conversation part. -/
def partMessage (part : ConversationPart) : ConversationMessage :=
  { id := part.id
    authorName := jsOrString part.author.name "Unknown"
    authorEmail := jsOrString part.author.email ""
    authorType := normalizeAuthorType part.author.type
    body := part.body.getD ""
    createdAt := part.created_at * 1000 }

/-- `processConversationData` (src/services/intercomApi.ts, lines 271–378).
Customer resolution: the author of the first part with author type `'user'`
and a truthy body; else the first contact; else the thread-opening author.
Messages: the source message when its body is truthy, then every part with a
truthy body and `part_type === 'comment'`, in payload order.  Tags: native
tags plus synthesized attribute tags.  Priority: platform priority flag, low
CX rating (JavaScript truthiness makes a 0 rating falsy), urgent/critical
tag, low tag, else medium. -/
def processConversationData (raw : IntercomConversation) : ProcessedConversation :=
  let customerMessage := raw.conversation_parts.find?
    (fun part => part.author.type = "user" && jsTruthyStr part.body)
  let customer : IntercomContact :=
    match customerMessage with
    | some part => { name := part.author.name, email := part.author.email }
    | none =>
      match raw.contacts with
      | c :: _ => c
      | [] => { name := raw.source.author.name, email := raw.source.author.email }
  let messages :=
    (if jsTruthyStr raw.source.body then [sourceMessage raw] else [])
    ++ (raw.conversation_parts.filter
        (fun part => jsTruthyStr part.body && part.part_type = "comment")).map partMessage
  let additionalTags :=
    (match raw.queryType with
     | some q => if q ≠ "" then ["Query: " ++ q] else []
     | none => [])
    ++ (if raw.aiIssueSummary then ["AI Summary Available"] else [])
    ++ (match raw.brand with
        | some b => if b ≠ "" then ["Brand: " ++ b] else []
        | none => [])
  let allTags := raw.tags ++ additionalTags
  let priority :=
    if raw.priority = "priority" then "high"
    else if (match raw.cxRating with
             | some r => decide (r ≠ 0) && decide (r ≤ 2)
             | none => false) then "high"
    else if allTags.any (fun tag =>
        containsSub (toLowerS tag) "urgent" || containsSub (toLowerS tag) "critical")
      then "high"
    else if allTags.any (fun tag => containsSub (toLowerS tag) "low") then "low"
    else "medium"
  { id := raw.id
    title := jsOrString raw.source.subject (jsOrString raw.title "Untitled Conversation")
    customerName := jsOrString customer.name "Unknown Customer"
    customerEmail := jsOrString customer.email ""
    createdAt := raw.created_at * 1000
    updatedAt := raw.updated_at * 1000
    status := if raw.state = "closed" then "closed" else "open"
    messages := messages
    tags := allTags
    priority := priority }

/-! ### Concrete test fixtures -/

/-- A minimal proposed-issue template whose text triggers no category, no
technical term and no component query, so `generateSearchQueries` emits
exactly the six generic queries. -/
def tmplZ : GitHubIssueTemplate :=
  { title := "zz", body := "qq", labels := [], priority := "medium" }

def ctxZ : EnhancedIssueContext :=
  { errorMessages := "", appId := "", customerImpact := "medium" }

def mkIssue (n : Nat) : GitHubIssue :=
  { id := n, number := n, title := "c", body := none, state := "open" }

def issues11 : List GitHubIssue :=
  [mkIssue 1, mkIssue 2, mkIssue 3, mkIssue 4, mkIssue 5, mkIssue 6,
   mkIssue 7, mkIssue 8, mkIssue 9, mkIssue 10, mkIssue 11]

/-- A search oracle that returns eleven distinct candidates for the query
`"error"` and nothing for any other query. -/
def search11 : String → Except Unit (List GitHubIssue) :=
  fun q => if q = "error" then Except.ok issues11 else Except.ok []

/-- A search oracle for which every call throws (simulated network error). -/
def searchAllFail : String → Except Unit (List GitHubIssue) :=
  fun _ => Except.error ()

/-- A scoring oracle that always succeeds with score 1. -/
def scoreOne : GitHubIssue → Option (ℚ × String) :=
  fun _ => some (1, "ai")

/-- A scoring oracle that throws on the candidate with id 11 and succeeds
with score 1 on every other candidate. -/
def scoreFail11 : GitHubIssue → Option (ℚ × String) :=
  fun issue => if issue.id = 11 then none else some (1, "ai")

/-- The scored entry produced for a successfully AI-scored fixture issue. -/
def okEntry (n : Nat) : AIAnalyzedIssue :=
  { issue := mkIssue n
    similarity_score := 1
    relationship_type := RelationshipType.duplicate
    reasoning := "ai"
    suggested_action := SuggestedAction.merge }

/-- The scored entry produced for fixture issue 11 via the lexical
fallback. -/
def failEntry11 : AIAnalyzedIssue :=
  { issue := mkIssue 11
    similarity_score := calculateBasicSimilarity (mkIssue 11) tmplZ ctxZ
    relationship_type := RelationshipType.related
    reasoning := fallbackReasoning
    suggested_action := SuggestedAction.reference }

/-- A raw conversation whose thread-opening message has no body and whose
contact list is empty (and with no customer-authored part). -/
def rawNoBody : IntercomConversation :=
  { id := "7"
    title := none
    created_at := 1
    updated_at := 2
    source :=
      { subject := none
        body := none
        author := { type := "user", name := some "Alice", email := some "alice@example.org" } }
    contacts := []
    conversation_parts := []
    tags := []
    queryType := none
    aiIssueSummary := false
    brand := none
    cxRating := none
    priority := "not_priority"
    state := "open" }

def partFix (i : String) (t : Nat) : ConversationPart :=
  { id := i
    part_type := "comment"
    body := some "x"
    created_at := t
    author := { type := "admin", name := some "Bob", email := none } }

/-- A raw conversation whose comment parts arrive out of timestamp order. -/
def rawOutOfOrder : IntercomConversation :=
  { rawNoBody with
    source :=
      { subject := some "s"
        body := some "hello"
        author := { type := "user", name := some "Alice", email := none } }
    conversation_parts := [partFix "p1" 5, partFix "p2" 3] }

/-- A raw conversation whose comment parts arrive in timestamp order. -/
def rawInOrder : IntercomConversation :=
  { rawOutOfOrder with conversation_parts := [partFix "p1" 3, partFix "p2" 5] }
/-! ### Helper lemmas: `splitWS` -/

theorem splitWS_nil : splitWS [] = [[]] := rfl

theorem splitWS_singleton (a : Char) :
    splitWS [a] = if isSpaceJS a then [[], []] else [[a]] := rfl

theorem splitWS_cons_cons (a a2 : Char) (r2 : List Char) :
    splitWS (a :: a2 :: r2) =
      if isSpaceJS a then
        (if isSpaceJS a2 then splitWS (a2 :: r2) else [] :: splitWS (a2 :: r2))
      else
        match splitWS (a2 :: r2) with
        | t :: ts => (a :: t) :: ts
        | [] => [[a]] := rfl

theorem splitWS_ne_nil (l : List Char) : splitWS l ≠ [] := by
  induction l with
  | nil => simp [splitWS_nil]
  | cons c rest ih =>
    cases rest with
    | nil =>
      rw [splitWS_singleton]
      split <;> simp
    | cons c2 r2 =>
      rw [splitWS_cons_cons]
      split
      · split
        · exact ih
        · simp
      · split <;> simp

theorem splitWS_token_chars {l : List Char} :
    ∀ t ∈ splitWS l, ∀ c ∈ t, c ∈ l ∧ isSpaceJS c = false := by
  induction l with
  | nil =>
    intro t ht
    rw [splitWS_nil, List.mem_singleton] at ht
    subst ht
    intro c hc
    exact absurd hc (List.not_mem_nil c)
  | cons a rest ih =>
    intro t ht
    cases rest with
    | nil =>
      rw [splitWS_singleton] at ht
      by_cases ha : isSpaceJS a
      · rw [if_pos ha] at ht
        intro c hc
        rcases List.mem_cons.mp ht with h | h
        · subst h; exact absurd hc (List.not_mem_nil c)
        · rw [List.mem_singleton] at h
          subst h; exact absurd hc (List.not_mem_nil c)
      · rw [if_neg ha] at ht
        rw [List.mem_singleton] at ht
        subst ht
        intro c hc
        rw [List.mem_singleton] at hc
        subst hc
        exact ⟨List.mem_cons_self c [], by simpa using ha⟩
    | cons a2 r2 =>
      rw [splitWS_cons_cons] at ht
      by_cases ha : isSpaceJS a
      · rw [if_pos ha] at ht
        by_cases h2 : isSpaceJS a2
        · rw [if_pos h2] at ht
          intro c hc
          have := ih t ht c hc
          exact ⟨List.mem_cons_of_mem a this.1, this.2⟩
        · rw [if_neg h2] at ht
          rcases List.mem_cons.mp ht with h | h
          · subst h
            intro c hc
            exact absurd hc (List.not_mem_nil c)
          · intro c hc
            have := ih t h c hc
            exact ⟨List.mem_cons_of_mem a this.1, this.2⟩
      · rw [if_neg ha] at ht
        cases hr : splitWS (a2 :: r2) with
        | nil => exact absurd hr (splitWS_ne_nil (a2 :: r2))
        | cons t0 ts0 =>
          rw [hr] at ht
          rcases List.mem_cons.mp ht with h | h
          · subst h
            intro c hc
            rcases List.mem_cons.mp hc with h | h
            · subst h
              exact ⟨List.mem_cons_self c (a2 :: r2), by simpa using ha⟩
            · have ht0 : t0 ∈ splitWS (a2 :: r2) := by
                rw [hr]; exact List.mem_cons_self t0 ts0
              have := ih t0 ht0 c h
              exact ⟨List.mem_cons_of_mem a this.1, this.2⟩
          · have hts : t ∈ splitWS (a2 :: r2) := by
              rw [hr]; exact List.mem_cons_of_mem t0 h
            intro c hc
            have := ih t hts c hc
            exact ⟨List.mem_cons_of_mem a this.1, this.2⟩

theorem splitWS_cons_nonspace {c : Char} (hc : isSpaceJS c = false) (rest : List Char) :
    splitWS (c :: rest) =
      (c :: (splitWS rest).headI) :: (splitWS rest).tail := by
  cases rest with
  | nil => rw [splitWS_singleton, if_neg (by simp [hc])]; rfl
  | cons a2 r2 =>
    rw [splitWS_cons_cons, if_neg (by simp [hc])]
    cases hr : splitWS (a2 :: r2) with
    | nil => exact absurd hr (splitWS_ne_nil (a2 :: r2))
    | cons t0 ts0 => simp

theorem splitWS_append (t l : List Char)
    (ht : ∀ c ∈ t, isSpaceJS c = false) :
    splitWS (t ++ l) = (t ++ (splitWS l).headI) :: (splitWS l).tail := by
  induction t with
  | nil =>
    cases hsp : splitWS l with
    | nil => exact absurd hsp (splitWS_ne_nil l)
    | cons a as => simp [hsp]
  | cons c t0 ih =>
    have hc : isSpaceJS c = false := ht c (List.mem_cons_self c t0)
    have ih0 := ih (fun d hd => ht d (List.mem_cons_of_mem c hd))
    rw [List.cons_append, splitWS_cons_nonspace hc, ih0]
    simp

theorem splitWS_space_cons {c : Char} (hc : isSpaceJS c = true) {l : List Char}
    (hl : ∀ c2, l.head? = some c2 → isSpaceJS c2 = false) :
    splitWS (c :: l) = [] :: splitWS l := by
  cases l with
  | nil => rw [splitWS_singleton, if_pos hc]; rfl
  | cons c2 r2 =>
    rw [splitWS_cons_cons, if_pos hc, if_neg (by simp [hl c2 rfl])]
/-! ### Helper lemmas: join, trim, dedup, sort -/

theorem joinTokens_head? {t : List Char} (ts : List (List Char)) (h : t ≠ []) :
    (joinTokens (t :: ts)).head? = t.head? := by
  cases ts with
  | nil => rfl
  | cons t2 ts2 =>
    show (t ++ (' ' :: joinTokens (t2 :: ts2))).head? = t.head?
    cases t with
    | nil => exact absurd rfl h
    | cons c t0 => rfl

theorem splitWS_joinTokens {ts : List (List Char)} (hne : ts ≠ [])
    (h1 : ∀ t ∈ ts, t ≠ [])
    (h2 : ∀ t ∈ ts, ∀ c ∈ t, isSpaceJS c = false) :
    splitWS (joinTokens ts) = ts := by
  induction ts with
  | nil => exact absurd rfl hne
  | cons t ts0 ih =>
    cases ts0 with
    | nil =>
      show splitWS t = [t]
      have h := splitWS_append t [] (h2 t (List.mem_cons_self t []))
      rw [List.append_nil] at h
      rw [h, splitWS_nil]
      simp
    | cons t2 ts2 =>
      show splitWS (t ++ (' ' :: joinTokens (t2 :: ts2))) = t :: t2 :: ts2
      have hspace : splitWS (' ' :: joinTokens (t2 :: ts2))
          = [] :: splitWS (joinTokens (t2 :: ts2)) := by
        apply splitWS_space_cons (by decide)
        intro c2 hc2
        rw [joinTokens_head? ts2 (h1 t2 (by simp))] at hc2
        have hc2m : c2 ∈ t2 := by
          cases t2 with
          | nil => simp at hc2
          | cons x xs =>
            simp only [List.head?_cons, Option.some.injEq] at hc2
            subst hc2
            exact List.mem_cons_self x xs
        exact h2 t2 (by simp) c2 hc2m
      have hih : splitWS (joinTokens (t2 :: ts2)) = t2 :: ts2 :=
        ih (by simp) (fun u hu => h1 u (List.mem_cons_of_mem t hu))
          (fun u hu => h2 u (List.mem_cons_of_mem t hu))
      rw [splitWS_append t (' ' :: joinTokens (t2 :: ts2)) (h2 t (by simp)),
        hspace, hih]
      simp

theorem head?_dropWhile {α : Type} (p : α → Bool) (l : List α) :
    ∀ a, (l.dropWhile p).head? = some a → p a = false := by
  induction l with
  | nil => intro a ha; simp at ha
  | cons c rest ih =>
    intro a ha
    rw [List.dropWhile_cons] at ha
    by_cases hc : p c
    · rw [if_pos hc] at ha
      exact ih a ha
    · rw [if_neg hc] at ha
      simp only [List.head?_cons, Option.some.injEq] at ha
      subst ha
      simpa using hc

theorem dropWhile_eq_self_of_head {α : Type} {p : α → Bool} {l : List α}
    (h : ∀ a, l.head? = some a → p a = false) : l.dropWhile p = l := by
  cases l with
  | nil => rfl
  | cons c rest =>
    rw [List.dropWhile_cons, if_neg]
    simp [h c rfl]

theorem jsTrimL_idem (l : List Char) : jsTrimL (jsTrimL l) = jsTrimL l := by
  show jsTrimL (List.rdropWhile isSpaceJS (l.dropWhile isSpaceJS))
      = List.rdropWhile isSpaceJS (l.dropWhile isSpaceJS)
  unfold jsTrimL
  have h1 : (List.rdropWhile isSpaceJS (l.dropWhile isSpaceJS)).dropWhile isSpaceJS
      = List.rdropWhile isSpaceJS (l.dropWhile isSpaceJS) := by
    apply dropWhile_eq_self_of_head
    intro a ha
    have hpre := List.rdropWhile_prefix isSpaceJS (l.dropWhile isSpaceJS)
    rcases hpre with ⟨s, hs⟩
    have : (l.dropWhile isSpaceJS).head? = some a := by
      rw [← hs, List.head?_append, ha]
      rfl
    exact head?_dropWhile isSpaceJS l a this
  rw [h1, List.rdropWhile_idempotent]

theorem jsTrimS_idem (s : String) : jsTrimS (jsTrimS s) = jsTrimS s := by
  show String.mk (jsTrimL (String.mk (jsTrimL s.data)).data) = String.mk (jsTrimL s.data)
  rw [show (String.mk (jsTrimL s.data)).data = jsTrimL s.data from rfl, jsTrimL_idem]

theorem mem_of_mem_dedupFirst {α : Type} [DecidableEq α] {a : α} :
    ∀ {l : List α}, a ∈ dedupFirst l → a ∈ l := by
  intro l
  induction l with
  | nil => intro h; simp [dedupFirst] at h
  | cons b rest ih =>
    intro h
    rcases List.mem_cons.mp h with h | h
    · subst h; exact List.mem_cons_self a rest
    · have := List.mem_filter.mp h
      exact List.mem_cons_of_mem b (ih this.1)

theorem nodup_dedupFirst {α : Type} [DecidableEq α] (l : List α) :
    (dedupFirst l).Nodup := by
  induction l with
  | nil => simp [dedupFirst]
  | cons b rest ih =>
    rw [show dedupFirst (b :: rest)
        = b :: (dedupFirst rest).filter (fun x => x ≠ b) from rfl]
    rw [List.nodup_cons]
    constructor
    · intro hb
      have := List.mem_filter.mp hb
      simp at this
    · exact List.Nodup.filter _ ih

theorem length_insertByScoreDesc (x : AIAnalyzedIssue) (l : List AIAnalyzedIssue) :
    (insertByScoreDesc x l).length = l.length + 1 := by
  induction l with
  | nil => rfl
  | cons y ys ih =>
    rw [show insertByScoreDesc x (y :: ys)
        = if y.similarity_score ≤ x.similarity_score then x :: y :: ys
          else y :: insertByScoreDesc x ys from rfl]
    split
    · rfl
    · simp [ih]

theorem length_sortByScoreDesc (l : List AIAnalyzedIssue) :
    (sortByScoreDesc l).length = l.length := by
  induction l with
  | nil => rfl
  | cons x xs ih =>
    show (insertByScoreDesc x (sortByScoreDesc xs)).length = xs.length + 1
    rw [length_insertByScoreDesc, ih]

/-! ### Helper lemmas: characters and word sets -/

theorem char_toLower_toLower (c : Char) :
    Char.toLower (Char.toLower c) = Char.toLower c := by
  unfold Char.toLower
  by_cases h : c.toNat ≥ 65 ∧ c.toNat ≤ 90
  · have hv : (c.toNat + 32).isValidChar := Or.inl (by omega)
    have ht : (Char.ofNat (c.toNat + 32)).toNat = c.toNat + 32 := by
      simp [Char.ofNat, hv]
      rfl
    simp only [if_pos h, ht]
    rw [if_neg (by omega)]
  · simp only [if_neg h]

theorem wordFinset_nonempty (s : String) : (wordFinset s).Nonempty := by
  rw [show wordFinset s = ((splitWS s.data).map String.mk).toFinset from rfl,
    List.toFinset_nonempty_iff]
  intro h
  exact splitWS_ne_nil s.data (List.map_eq_nil_iff.mp h)

theorem jaccardRatio_bounds {s t : Finset String} (h : (s ∪ t).Nonempty) :
    0 ≤ ((s ∩ t).card : ℚ) / ((s ∪ t).card : ℚ)
      ∧ ((s ∩ t).card : ℚ) / ((s ∪ t).card : ℚ) ≤ 1 := by
  have hpos : (0 : ℚ) < ((s ∪ t).card : ℚ) := by
    exact_mod_cast Finset.card_pos.mpr h
  constructor
  · exact div_nonneg (Nat.cast_nonneg _) (Nat.cast_nonneg _)
  · rw [div_le_one hpos]
    exact_mod_cast Finset.card_le_card Finset.inter_subset_union
/-! ### Claim C5 — score-to-classification mapping -/

/-- Claim C5: for every candidate scored by the Orchestrator, a similarity
score at least 0.8 yields relationship `duplicate` and action `merge`; a
score in [0.6, 0.8) yields `related`/`reference`; a score below 0.6 also
yields `related`/`reference`. -/
theorem C5_classification (s : ℚ) :
    (0.8 ≤ s → classifyScore s = (RelationshipType.duplicate, SuggestedAction.merge))
    ∧ (0.6 ≤ s ∧ s < 0.8 →
        classifyScore s = (RelationshipType.related, SuggestedAction.reference))
    ∧ (s < 0.6 → classifyScore s = (RelationshipType.related, SuggestedAction.reference)) := by
  unfold classifyScore
  refine ⟨fun h => ?_, fun h => ?_, fun h => ?_⟩
  · rw [if_pos h]
  · rw [if_neg (by intro hc; linarith [h.2]), if_pos h.1]
  · rw [if_neg (by intro hc; linarith), if_neg (by intro hc; linarith)]

theorem C5_classification_witness :
    ((0.8 : ℚ) ≤ 0.85
      ∧ classifyScore 0.85 = (RelationshipType.duplicate, SuggestedAction.merge))
    ∧ ((0.6 : ℚ) ≤ 0.65 ∧ (0.65 : ℚ) < 0.8
      ∧ classifyScore 0.65 = (RelationshipType.related, SuggestedAction.reference))
    ∧ ((0.3 : ℚ) < 0.6
      ∧ classifyScore 0.3 = (RelationshipType.related, SuggestedAction.reference)) :=
  ⟨⟨by norm_num, (C5_classification 0.85).1 (by norm_num)⟩,
   ⟨by norm_num, by norm_num, (C5_classification 0.65).2.1 ⟨by norm_num, by norm_num⟩⟩,
   ⟨by norm_num, (C5_classification 0.3).2.2 (by norm_num)⟩⟩

/-! ### Claim C9 — Jaccard symmetry and self-similarity -/

/-- Claim C9: `calculateJaccardSimilarity` is symmetric, and for every
non-empty string the self-similarity is 1. -/
theorem C9_jaccard_symm_self :
    (∀ a b : String, calculateJaccardSimilarity a b = calculateJaccardSimilarity b a)
    ∧ (∀ a : String, a ≠ "" → calculateJaccardSimilarity a a = 1) := by
  constructor
  · intro a b
    simp only [calculateJaccardSimilarity]
    rw [Finset.inter_comm, Finset.union_comm]
  · intro a ha
    simp only [calculateJaccardSimilarity]
    rw [Finset.inter_self, Finset.union_self]
    apply div_self
    have hpos : 0 < (wordFinset (toLowerS a)).card :=
      Finset.card_pos.mpr (wordFinset_nonempty (toLowerS a))
    exact_mod_cast Nat.pos_iff_ne_zero.mp hpos

theorem C9_jaccard_witness :
    ("ab" : String) ≠ "" ∧ calculateJaccardSimilarity "ab" "ab" = 1 :=
  ⟨by decide, C9_jaccard_symm_self.2 "ab" (by decide)⟩

/-! ### Claim C10 — totality and [0,1] bounds of the similarity functions -/

theorem calculateJaccardSimilarity_bounds (a b : String) :
    0 ≤ calculateJaccardSimilarity a b ∧ calculateJaccardSimilarity a b ≤ 1 := by
  simp only [calculateJaccardSimilarity]
  exact jaccardRatio_bounds
    (Finset.Nonempty.mono Finset.subset_union_left (wordFinset_nonempty _))

theorem calculateBasicSimilarity_bounds (issue : GitHubIssue)
    (template : GitHubIssueTemplate) (context : EnhancedIssueContext) :
    0 ≤ calculateBasicSimilarity issue template context
    ∧ calculateBasicSimilarity issue template context ≤ 1 := by
  simp only [calculateBasicSimilarity]
  have hJ := jaccardRatio_bounds
    (s := wordFinset (toLowerS (issue.title ++ " " ++ issue.body.getD "")))
    (t := wordFinset (toLowerS (template.title ++ " " ++ template.body)))
    (Finset.Nonempty.mono Finset.subset_union_left (wordFinset_nonempty _))
  constructor
  · apply le_min (by norm_num)
    apply add_nonneg hJ.1
    split
    · split <;> norm_num
    · norm_num
  · exact min_le_left _ _

theorem weighted_sum_bounds {t b e a : ℚ} (ht : 0 ≤ t ∧ t ≤ 1) (hb : 0 ≤ b ∧ b ≤ 1)
    (he : 0 ≤ e ∧ e ≤ 1) (ha : 0 ≤ a ∧ a ≤ 1) :
    0 ≤ t * 0.4 + b * 0.3 + e * 0.2 + a * 0.1
    ∧ t * 0.4 + b * 0.3 + e * 0.2 + a * 0.1 ≤ 1 := by
  constructor <;> nlinarith [ht.1, ht.2, hb.1, hb.2, he.1, he.2, ha.1, ha.2]

/-- Claim C10: splitting any string (the empty string included) yields at
least one word, so the denominator of the Jaccard ratio is never zero, and
`calculateJaccardSimilarity`, `calculateBasicSimilarity` and the weighted
`calculateSemanticSimilarity` all take values in [0, 1]. -/
theorem C10_similarity_total_bounded (text1 text2 : String)
    (issue : GitHubIssue) (template : GitHubIssueTemplate) (context : EnhancedIssueContext)
    (newIssue : NewIssueInfo) (existingIssue : ExistingIssueInfo) :
    0 < (wordFinset (toLowerS text1) ∪ wordFinset (toLowerS text2)).card
    ∧ (0 ≤ calculateJaccardSimilarity text1 text2
        ∧ calculateJaccardSimilarity text1 text2 ≤ 1)
    ∧ (0 ≤ calculateBasicSimilarity issue template context
        ∧ calculateBasicSimilarity issue template context ≤ 1)
    ∧ (0 ≤ calculateSemanticSimilarity newIssue existingIssue
        ∧ calculateSemanticSimilarity newIssue existingIssue ≤ 1) := by
  refine ⟨?_, calculateJaccardSimilarity_bounds text1 text2, ?_, ?_⟩
  · exact Finset.card_pos.mpr
      (Finset.Nonempty.mono Finset.subset_union_left (wordFinset_nonempty _))
  · exact calculateBasicSimilarity_bounds issue template context
  · obtain ⟨nt, nb, ne, na⟩ := newIssue
    simp only [calculateSemanticSimilarity]
    have h1 := calculateJaccardSimilarity_bounds nt existingIssue.title
    have h2 := calculateJaccardSimilarity_bounds nb existingIssue.body
    cases ne with
    | none =>
      cases na with
      | none => exact weighted_sum_bounds h1 h2 (by norm_num) (by norm_num)
      | some a => exact weighted_sum_bounds h1 h2 (by norm_num) (by constructor <;> split <;> (try split) <;> norm_num)
    | some s =>
      have hs : 0 ≤ (if s ≠ "" then calculateJaccardSimilarity s existingIssue.body else 0)
          ∧ (if s ≠ "" then calculateJaccardSimilarity s existingIssue.body else 0) ≤ 1 := by
        split
        · exact calculateJaccardSimilarity_bounds s existingIssue.body
        · norm_num
      cases na with
      | none => exact weighted_sum_bounds h1 h2 hs (by norm_num)
      | some a => exact weighted_sum_bounds h1 h2 hs (by constructor <;> split <;> (try split) <;> norm_num)

/-! ### Claim C1 — behaviour when every search call fails -/

theorem collectSearchResults_all_fail (search : String → Except Unit (List GitHubIssue)) :
    ∀ (queries : List String), (∀ q ∈ queries, search q = Except.error ()) →
      collectSearchResults search queries = [] := by
  have haux : ∀ (queries : List String), (∀ q ∈ queries, search q = Except.error ()) →
      ∀ acc, queries.foldl (fun acc q =>
        match search q with
        | Except.ok issues => acc ++ issues
        | Except.error _ => acc) acc = acc := by
    intro queries
    induction queries with
    | nil => intro _ acc; rfl
    | cons q qs ih =>
      intro h acc
      simp only [List.foldl_cons, h q (List.mem_cons_self q qs)]
      exact ih (fun p hp => h p (List.mem_cons_of_mem q hp)) acc
  intro queries h
  exact haux queries h []

/-- Claim C1 (amended): when every generated query's search call throws, the
run does not fail — each failure is caught, logged and skipped, and
`analyzeForDuplicates` returns a successful empty result list. -/
theorem C1_all_fail_returns_ok_empty
    (search : String → Except Unit (List GitHubIssue))
    (scoreOutcome : GitHubIssue → Option (ℚ × String))
    (template : GitHubIssueTemplate) (context : EnhancedIssueContext)
    (maxResults : Option Nat)
    (h : ∀ q ∈ generateSearchQueries template context, search q = Except.error ()) :
    analyzeForDuplicates true search scoreOutcome template context maxResults
      = Except.ok [] := by
  have hc := collectSearchResults_all_fail search (generateSearchQueries template context) h
  simp only [analyzeForDuplicates, if_true, analyzeWithOpenAI, hc]
  rw [show dedupById ([] : List GitHubIssue) = [] from rfl,
    show scoredCandidates scoreOutcome template context [] = [] from rfl,
    show sortByScoreDesc [] = [] from rfl, List.take_nil]

theorem C1_all_fail_witness :
    analyzeForDuplicates true searchAllFail scoreOne tmplZ ctxZ none = Except.ok [] :=
  C1_all_fail_returns_ok_empty searchAllFail scoreOne tmplZ ctxZ none
    (fun _ _ => rfl)

/-- Claim C1 counterexample to the claim as stated: with an AI service
configured and a search oracle that throws on every call, the run ends
successfully with an empty result list (it does not end in a failed state),
so total search failure is not escalated to a RateLimited/Timeout-class run
failure. -/
theorem C1_counterexample :
    analyzeForDuplicates true searchAllFail scoreOne tmplZ ctxZ none
      = Except.ok []
    ∧ searchAllFail "error" = Except.error () := by
  refine ⟨?_, ?_⟩ <;> rfl

/-! ### Claim C4 — `total_searched` -/

/-- Claim C4 (amended): `total_searched` equals the length of the truncated
ranked list — the minimum of the effective maximum result count
(`maxResults || 10`) and the number of unique scored candidates — not the
number of unique candidates whenever that number exceeds the maximum. -/
theorem C4_total_searched_eq_min
    (search : String → Except Unit (List GitHubIssue))
    (scoreOutcome : GitHubIssue → Option (ℚ × String))
    (template : GitHubIssueTemplate) (context : EnhancedIssueContext)
    (maxResults : Option Nat) (elapsedMs : Nat) (useLocalAI : Bool) :
    (mkAnalysisResult (analyzeWithOpenAI search scoreOutcome template context maxResults)
        elapsedMs useLocalAI).total_searched
      = min (jsOrDefault maxResults 10)
          (dedupById (collectSearchResults search
            (generateSearchQueries template context))).length := by
  simp only [mkAnalysisResult, analyzeWithOpenAI, List.length_take,
    length_sortByScoreDesc, scoredCandidates, List.length_map]

/-- Claim C4 counterexample to the claim as stated: a run that scores eleven
unique candidates reports `total_searched = 10` (the truncated list length),
not 11. -/
theorem C4_counterexample :
    (dedupById (collectSearchResults search11 (generateSearchQueries tmplZ ctxZ))).length = 11
    ∧ (mkAnalysisResult (analyzeWithOpenAI search11 scoreOne tmplZ ctxZ none)
        5 false).total_searched = 10 := by
  constructor
  · decide
  · simp only [mkAnalysisResult, analyzeWithOpenAI, List.length_take,
      length_sortByScoreDesc, scoredCandidates, List.length_map]
    rw [show (dedupById (collectSearchResults search11
        (generateSearchQueries tmplZ ctxZ))).length = 11 from by decide]
    decide

/-! ### Claim C2 — normalizer on a bodiless, contactless payload -/

/-- Claim C2 (amended): on a payload whose thread-opening message has no
body, whose contact list is empty and which has no customer-authored part,
the normalizer does not fail; it produces a conversation that falls back to
the thread-opening author for the customer identity and whose message list
contains just the comment parts (none of which is the bodiless source
message). -/
theorem C2_no_failure_falls_back_to_source_author (raw : IntercomConversation)
    (hbody : raw.source.body = none)
    (hcontacts : raw.contacts = [])
    (hparts : ∀ p ∈ raw.conversation_parts,
      (decide (p.author.type = "user") && jsTruthyStr p.body) = false) :
    (processConversationData raw).customerName
        = jsOrString raw.source.author.name "Unknown Customer"
    ∧ (processConversationData raw).customerEmail
        = jsOrString raw.source.author.email ""
    ∧ (processConversationData raw).messages
        = (raw.conversation_parts.filter
            (fun part => jsTruthyStr part.body && decide (part.part_type = "comment"))).map
            partMessage := by
  have hfind : raw.conversation_parts.find?
      (fun part => decide (part.author.type = "user") && jsTruthyStr part.body) = none :=
    List.find?_eq_none.mpr (fun x hx => by simp [hparts x hx])
  simp only [processConversationData, hfind, hcontacts, hbody]
  refine ⟨trivial, trivial, ?_⟩
  simp [jsTruthyStr]

theorem C2_witness :
    (processConversationData rawNoBody).customerName
        = jsOrString rawNoBody.source.author.name "Unknown Customer"
    ∧ (processConversationData rawNoBody).customerEmail
        = jsOrString rawNoBody.source.author.email ""
    ∧ (processConversationData rawNoBody).messages
        = (rawNoBody.conversation_parts.filter
            (fun part => jsTruthyStr part.body && decide (part.part_type = "comment"))).map
            partMessage :=
  C2_no_failure_falls_back_to_source_author rawNoBody rfl rfl
    (fun p hp => absurd hp (List.not_mem_nil p))

/-- Claim C2 counterexample to the claim as stated: the structurally-unusable
payload `rawNoBody` (no source body, no contacts) is normalized successfully
into a conversation — no MalformedInput failure exists in the normalizer. -/
theorem C2_counterexample :
    (processConversationData rawNoBody).customerName = "Alice"
    ∧ (processConversationData rawNoBody).customerEmail = "alice@example.org"
    ∧ (processConversationData rawNoBody).messages = []
    ∧ (processConversationData rawNoBody).status = "open" := by decide

/-! ### Claim C3 — message timestamp ordering -/

/-- Claim C3 (amended): the normalizer preserves payload order without
sorting, so the normalized messages are non-decreasing in `createdAt`
whenever the payload's conversation parts arrive in non-decreasing
`created_at` order and the thread-opening timestamp is at most each part's
timestamp. -/
theorem C3_messages_sorted_of_parts_sorted (raw : IntercomConversation)
    (hsorted : raw.conversation_parts.Pairwise (fun p q => p.created_at ≤ q.created_at))
    (hsrc : ∀ p ∈ raw.conversation_parts, raw.created_at ≤ p.created_at) :
    List.Sorted (· ≤ ·)
      ((processConversationData raw).messages.map (fun m => m.createdAt)) := by
  have hmsg : (processConversationData raw).messages
      = (if jsTruthyStr raw.source.body then [sourceMessage raw] else [])
        ++ (raw.conversation_parts.filter
            (fun part => jsTruthyStr part.body && decide (part.part_type = "comment"))).map
            partMessage := rfl
  have hparts : List.Sorted (· ≤ ·)
      (((raw.conversation_parts.filter
          (fun part => jsTruthyStr part.body && decide (part.part_type = "comment"))).map
          partMessage).map (fun m => m.createdAt)) := by
    rw [List.map_map]
    exact List.Pairwise.map _ (fun p q h => by
        show p.created_at * 1000 ≤ q.created_at * 1000
        omega)
      (List.Pairwise.sublist (List.filter_sublist _) hsorted)
  rw [hmsg]
  by_cases hb : jsTruthyStr raw.source.body
  · rw [if_pos hb, List.singleton_append, List.map_cons, List.sorted_cons]
    refine ⟨?_, hparts⟩
    intro b hbmem
    rw [List.map_map] at hbmem
    rcases List.mem_map.mp hbmem with ⟨p, hp, hpb⟩
    have hple := hsrc p ((List.filter_sublist _).subset hp)
    show (sourceMessage raw).createdAt ≤ b
    rw [← hpb]
    show raw.created_at * 1000 ≤ p.created_at * 1000
    omega
  · rw [if_neg hb, List.nil_append]
    exact hparts

theorem C3_witness :
    List.Sorted (· ≤ ·)
      ((processConversationData rawInOrder).messages.map (fun m => m.createdAt)) :=
  C3_messages_sorted_of_parts_sorted rawInOrder (by decide) (by decide)

/-- Claim C3 counterexample to the claim as stated: a payload whose comment
parts arrive out of timestamp order yields a message list whose `createdAt`
sequence is not non-decreasing — the normalizer does not sort. -/
theorem C3_counterexample :
    ¬ List.Sorted (· ≤ ·)
      ((processConversationData rawOutOfOrder).messages.map (fun m => m.createdAt)) := by
  decide

/-! ### Claim C7 — query generator well-formedness -/

theorem cleanAndCap_wellformed (Q : List String) :
    (cleanAndCap Q ≠ [] ∧ (cleanAndCap Q).Nodup ∧ (cleanAndCap Q).length ≤ 8)
    ∧ ∀ q ∈ cleanAndCap Q, jsTrimS q = q ∧ 2 < q.length ∧ q.length < 50 := by
  unfold cleanAndCap
  by_cases h : 0 < ((dedupFirst ((Q.map jsTrimS).filter
      (fun q => 2 < q.length && q.length < 50))).take 8).length
  · rw [if_pos h]
    refine ⟨⟨?_, ?_, ?_⟩, ?_⟩
    · intro hnil
      rw [hnil] at h
      simp at h
    · exact List.Nodup.sublist (List.take_sublist _ _) (nodup_dedupFirst _)
    · rw [List.length_take]
      exact inf_le_left
    · intro q hq
      have h1 : q ∈ dedupFirst ((Q.map jsTrimS).filter
          (fun q => 2 < q.length && q.length < 50)) :=
        (List.take_sublist _ _).subset hq
      have h2 := mem_of_mem_dedupFirst h1
      have h3 := List.mem_filter.mp h2
      have hlen : 2 < q.length ∧ q.length < 50 := by
        have := h3.2
        simp only [Bool.and_eq_true, decide_eq_true_eq] at this
        exact this
      refine ⟨?_, hlen.1, hlen.2⟩
      rcases List.mem_map.mp h3.1 with ⟨x, _, hx⟩
      rw [← hx, jsTrimS_idem]
  · rw [if_neg h]
    refine ⟨⟨by simp, by decide, by decide⟩, ?_⟩
    have hall : ∀ q ∈ (["error", "issue", "bug"] : List String),
        jsTrimS q = q ∧ 2 < q.length ∧ q.length < 50 := by decide
    exact hall

/-- Claim C7: for every template and enrichment context, the generated query
list is non-empty, duplicate-free, has at most 8 entries, and every entry is
trimmed with length strictly between 2 and 50. -/
theorem C7_query_generator_wellformed (template : GitHubIssueTemplate)
    (context : EnhancedIssueContext) :
    (generateSearchQueries template context ≠ []
      ∧ (generateSearchQueries template context).Nodup
      ∧ (generateSearchQueries template context).length ≤ 8)
    ∧ ∀ q ∈ generateSearchQueries template context,
        jsTrimS q = q ∧ 2 < q.length ∧ q.length < 50 := by
  simp only [generateSearchQueries]
  exact cleanAndCap_wellformed _

theorem C7_witness :
    "error" ∈ generateSearchQueries tmplZ ctxZ
    ∧ (jsTrimS "error" = "error" ∧ 2 < ("error" : String).length
        ∧ ("error" : String).length < 50) :=
  ⟨by decide, (C7_query_generator_wellformed tmplZ ctxZ).2 "error" (by decide)⟩

/-! ### Claim C8 — `extractKeywords` is bounded and idempotent -/

theorem map_eq_self_of_fixed {α : Type} {f : α → α} :
    ∀ {l : List α}, (∀ a ∈ l, f a = a) → l.map f = l := by
  intro l
  induction l with
  | nil => intro _; rfl
  | cons a l0 ih =>
    intro h
    rw [List.map_cons, h a (List.mem_cons_self a l0),
      ih (fun b hb => h b (List.mem_cons_of_mem a hb))]

theorem mem_joinTokens {c : Char} :
    ∀ {ts : List (List Char)}, c ∈ joinTokens ts → (∃ t ∈ ts, c ∈ t) ∨ c = ' ' := by
  intro ts
  induction ts with
  | nil => intro h; simp [joinTokens] at h
  | cons t ts0 ih =>
    cases ts0 with
    | nil => intro h; exact Or.inl ⟨t, List.mem_cons_self t [], h⟩
    | cons t2 ts2 =>
      intro h
      rcases List.mem_append.mp h with h | h
      · exact Or.inl ⟨t, List.mem_cons_self t (t2 :: ts2), h⟩
      · rcases List.mem_cons.mp h with h | h
        · exact Or.inr h
        · rcases ih h with ⟨u, hu, hcu⟩ | h
          · exact Or.inl ⟨u, List.mem_cons_of_mem t hu, hcu⟩
          · exact Or.inr h

theorem extractKeywordsL_length_le (l : List Char) : (extractKeywordsL l).length ≤ 20 := by
  unfold extractKeywordsL
  rw [List.length_take]
  exact inf_le_left

theorem extractKeywordsL_mem_spec (l : List Char) :
    ∀ t ∈ extractKeywordsL l, keepKeyword t = true
      ∧ ∀ c ∈ t, isSpaceJS c = false ∧ (isWordCharJS c || isSpaceJS c) = true
          ∧ Char.toLower c = c := by
  intro t ht
  have ht2 : t ∈ (splitWS ((toLowerL l).filter
      (fun c => isWordCharJS c || isSpaceJS c))).filter keepKeyword :=
    (List.take_sublist _ _).subset ht
  have h3 := List.mem_filter.mp ht2
  refine ⟨h3.2, ?_⟩
  intro c hc
  have h4 := splitWS_token_chars _ h3.1 c hc
  have h5 := List.mem_filter.mp h4.1
  refine ⟨h4.2, h5.2, ?_⟩
  have h6 : c ∈ l.map Char.toLower := h5.1
  rcases List.mem_map.mp h6 with ⟨c0, _, hc0⟩
  rw [← hc0, char_toLower_toLower]

theorem extractKeywordsL_idem (l : List Char) :
    extractKeywordsL (joinTokens (extractKeywordsL l)) = extractKeywordsL l := by
  have hmem := extractKeywordsL_mem_spec l
  by_cases hne : extractKeywordsL l = []
  · rw [hne]
    decide
  · have h1 : ∀ t ∈ extractKeywordsL l, t ≠ [] := by
      intro t ht hnil
      have hk := (hmem t ht).1
      unfold keepKeyword at hk
      simp only [Bool.and_eq_true, decide_eq_true_eq] at hk
      rw [hnil] at hk
      simp at hk
    have hjoin_chars : ∀ c ∈ joinTokens (extractKeywordsL l),
        Char.toLower c = c ∧ (isWordCharJS c || isSpaceJS c) = true := by
      intro c hc
      rcases mem_joinTokens hc with ⟨t, ht, hct⟩ | hsp
      · exact ⟨((hmem t ht).2 c hct).2.2, ((hmem t ht).2 c hct).2.1⟩
      · subst hsp
        exact ⟨rfl, by decide⟩
    conv_lhs => rw [extractKeywordsL]
    have hlow : toLowerL (joinTokens (extractKeywordsL l))
        = joinTokens (extractKeywordsL l) :=
      map_eq_self_of_fixed (fun c hc => (hjoin_chars c hc).1)
    rw [hlow]
    rw [List.filter_eq_self.mpr (fun c hc => (hjoin_chars c hc).2)]
    rw [splitWS_joinTokens hne h1 (fun t ht c hc => ((hmem t ht).2 c hc).1)]
    rw [List.filter_eq_self.mpr (fun t ht => (hmem t ht).1)]
    exact List.take_of_length_le (extractKeywordsL_length_le l)

/-- Claim C8: `extractKeywords` returns at most 20 tokens and is idempotent:
re-extracting from the space-joined keywords reproduces them exactly. -/
theorem C8_extractKeywords_idem_bounded (x : String) :
    extractKeywords (joinSpace (extractKeywords x)) = extractKeywords x
    ∧ (extractKeywords x).length ≤ 20 := by
  constructor
  · show (extractKeywordsL (joinSpace (extractKeywords x)).data).map String.mk
        = (extractKeywordsL x.data).map String.mk
    have hdata : (joinSpace (extractKeywords x)).data
        = joinTokens (extractKeywordsL x.data) := by
      show joinTokens (((extractKeywordsL x.data).map String.mk).map String.data)
          = joinTokens (extractKeywordsL x.data)
      rw [List.map_map]
      congr 1
      exact map_eq_self_of_fixed (fun t _ => rfl)
    rw [hdata, extractKeywordsL_idem]
  · show ((extractKeywordsL x.data).map String.mk).length ≤ 20
    rw [List.length_map]
    exact extractKeywordsL_length_le x.data

/-! ### Claim C6 — per-candidate scorer failure falls back, run proceeds -/

/-- Claim C6 (amended): a unique candidate whose AI similarity call throws
does not abort the run — it is still scored, entering the ranking with the
`calculateBasicSimilarity` fallback score, relationship `related`, the
fallback reasoning string and action `reference`; it then appears in the
final ranked output only subject to the same `maxResults` truncation as any
other candidate. -/
theorem C6_fallback_candidate_is_scored
    (search : String → Except Unit (List GitHubIssue))
    (scoreOutcome : GitHubIssue → Option (ℚ × String))
    (template : GitHubIssueTemplate) (context : EnhancedIssueContext)
    (issue : GitHubIssue)
    (hmem : issue ∈ dedupById (collectSearchResults search
      (generateSearchQueries template context)))
    (hthrow : scoreOutcome issue = none) :
    ({ issue := issue
       similarity_score := calculateBasicSimilarity issue template context
       relationship_type := RelationshipType.related
       reasoning := fallbackReasoning
       suggested_action := SuggestedAction.reference } : AIAnalyzedIssue)
      ∈ scoredCandidates scoreOutcome template context
          (dedupById (collectSearchResults search
            (generateSearchQueries template context))) := by
  unfold scoredCandidates
  refine List.mem_map.mpr ⟨issue, hmem, ?_⟩
  rw [hthrow]

theorem C6_witness :
    ({ issue := mkIssue 11
       similarity_score := calculateBasicSimilarity (mkIssue 11) tmplZ ctxZ
       relationship_type := RelationshipType.related
       reasoning := fallbackReasoning
       suggested_action := SuggestedAction.reference } : AIAnalyzedIssue)
      ∈ scoredCandidates scoreFail11 tmplZ ctxZ
          (dedupById (collectSearchResults search11
            (generateSearchQueries tmplZ ctxZ))) :=
  C6_fallback_candidate_is_scored search11 scoreFail11 tmplZ ctxZ (mkIssue 11)
    (by decide) rfl

/-- Claim C6 counterexample to the claim as stated: candidate 11's AI call
throws and it is scored via the lexical fallback, yet it does not appear in
the final ranked output — ten successfully scored candidates outscore it and
the output is truncated to `maxResults || 10` entries. -/
theorem C6_counterexample :
    scoreFail11 (mkIssue 11) = none
    ∧ mkIssue 11 ∈ dedupById (collectSearchResults search11
        (generateSearchQueries tmplZ ctxZ))
    ∧ (analyzeWithOpenAI search11 scoreFail11 tmplZ ctxZ none).all
        (fun e => e.issue.id ≠ 11) = true := by
  refine ⟨rfl, by decide, ?_⟩
  have hq : dedupById (collectSearchResults search11 (generateSearchQueries tmplZ ctxZ))
      = issues11 := by decide
  have hcl : classifyScore 1 = (RelationshipType.duplicate, SuggestedAction.merge) := by
    unfold classifyScore
    rw [if_pos (by norm_num)]
  have hid : ∀ n, (mkIssue n).id = n := fun n => rfl
  have hsc : scoredCandidates scoreFail11 tmplZ ctxZ issues11
      = [okEntry 1, okEntry 2, okEntry 3, okEntry 4, okEntry 5, okEntry 6, okEntry 7,
         okEntry 8, okEntry 9, okEntry 10, failEntry11] := by
    norm_num [scoredCandidates, issues11, scoreFail11, hid, hcl, okEntry, failEntry11]
  have hos : ∀ n, (okEntry n).similarity_score = 1 := fun n => rfl
  have hfs : failEntry11.similarity_score
      = calculateBasicSimilarity (mkIssue 11) tmplZ ctxZ := rfl
  have hble : calculateBasicSimilarity (mkIssue 11) tmplZ ctxZ ≤ 1 :=
    (calculateBasicSimilarity_bounds (mkIssue 11) tmplZ ctxZ).2
  have hsort : sortByScoreDesc
      [okEntry 1, okEntry 2, okEntry 3, okEntry 4, okEntry 5, okEntry 6, okEntry 7,
       okEntry 8, okEntry 9, okEntry 10, failEntry11]
      = [okEntry 1, okEntry 2, okEntry 3, okEntry 4, okEntry 5, okEntry 6, okEntry 7,
         okEntry 8, okEntry 9, okEntry 10, failEntry11] := by
    simp only [sortByScoreDesc, insertByScoreDesc, hos, hfs, le_refl, if_true, hble]
  show ((sortByScoreDesc (scoredCandidates scoreFail11 tmplZ ctxZ
      (dedupById (collectSearchResults search11 (generateSearchQueries tmplZ ctxZ))))).take
      (jsOrDefault none 10)).all (fun e => e.issue.id ≠ 11) = true
  rw [hq, hsc, hsort]
  decide
